import Mathlib

/-!
# Verification of the beneficiary case-management core

Shallow embedding of the authorization / validation / audit-logging layer of
the `khvni/beneficiary` repository: the Next.js API route handlers in
`src/app/api/beneficiaries/**` and `src/app/api/services/**`, together with
the zod schemas in `src/lib/validation.ts`.  Each route handler becomes a pure
Lean function from the authenticated actor, request parameters/body and a
store snapshot to a response and an updated store.  The `requireAuth` /
`requireRole` helpers live in `src/lib/auth`, which is not among the provided
sources; they are modelled from the spec (fails-closed rule table of §4.2).
-/

set_option maxHeartbeats 1000000
set_option linter.dupNamespace false

namespace Beneficiary

/-! ## Enumerations (from `src/lib/validation.ts` and the route handlers) -/

/-- The `UserRole` enum: SUPER_ADMIN, ADMIN, STAFF, FIELD_WORKER, VOLUNTEER. -/
inductive Role where
  | SUPER_ADMIN | ADMIN | STAFF | FIELD_WORKER | VOLUNTEER
deriving DecidableEq, Repr

/-- The `gender` enum of `beneficiarySchema`. -/
inductive Gender where
  | MALE | FEMALE | OTHER | PREFER_NOT_TO_SAY
deriving DecidableEq, Repr

/-- The `category` enum of `beneficiarySchema`. -/
inductive BCategory where
  | HOMELESS | ELDERLY | DISABLED | LOW_INCOME | REFUGEE | ORPHAN | SICK | OTHER
deriving DecidableEq, Repr

/-- Beneficiary `status` enum. -/
inductive BStatus where
  | ACTIVE | INACTIVE | ARCHIVED | DECEASED
deriving DecidableEq, Repr

/-- The `priority` enum (shared by beneficiaries and cases). -/
inductive Priority where
  | LOW | MEDIUM | HIGH | URGENT
deriving DecidableEq, Repr

/-- Case `type` enum of `caseSchema`. -/
inductive CaseType where
  | FOOD | SHELTER | HEALTHCARE | EDUCATION | IDENTITY_DOCUMENTS | EMPLOYMENT | OTHER
deriving DecidableEq, Repr

/-- Case `status` enum of `caseSchema`. -/
inductive CStatus where
  | OPEN | IN_PROGRESS | RESOLVED | CLOSED
deriving DecidableEq, Repr

/-- Service `type` enum of `serviceSchema`. -/
inductive ServiceType where
  | FOOD_DISTRIBUTION | SHELTER_ADMISSION | SHELTER_EXIT | MEDICAL_CHECKUP
  | COUNSELING | EDUCATION | FINANCIAL_AID | RESCUE | OTHER
deriving DecidableEq, Repr

/-- Closed audit vocabulary used by the `prisma.auditLog.create` calls. -/
inductive AuditAction where
  | BENEFICIARY_CREATED | BENEFICIARY_UPDATED | BENEFICIARY_ARCHIVED
  | CASE_CREATED | CASE_UPDATED | CASE_DELETED
  | SERVICE_CREATED | SERVICE_UPDATED | SERVICE_DELETED
deriving DecidableEq, Repr

/-! ## Actors and persisted rows -/

/-- An authenticated actor as the handlers use it: `user.id` and `user.role`. -/
structure User where
  id : String
  role : Role
deriving DecidableEq, Repr

/-- A persisted Beneficiary row (fields of `beneficiarySchema` plus the
ownership columns the handlers read/write: `createdById`, `assignedToId`). -/
structure Beneficiary where
  id : String
  firstName : String
  lastName : String
  dateOfBirth : Option Nat
  gender : Option Gender
  nationality : Option String
  idNumber : Option String
  phone : Option String
  email : Option String
  address : Option String
  city : Option String
  state : Option String
  postcode : Option String
  emergencyName : Option String
  emergencyPhone : Option String
  emergencyRelation : Option String
  category : BCategory
  status : BStatus
  priority : Priority
  notes : Option String
  tags : List String
  source : Option String
  createdById : String
  assignedToId : String
deriving DecidableEq, Repr

/-- A persisted Case row.  `assignedToIds` is the set of assigned user ids
(the `assignedTo` many-to-many relation). -/
structure CaseRow where
  id : String
  title : String
  description : String
  type : CaseType
  priority : Priority
  status : CStatus
  beneficiaryId : String
  createdById : String
  assignedToIds : List String
  resolvedAt : Option Nat
deriving DecidableEq, Repr

/-- A persisted Service row.  `quantity`/`cost` are the positive numbers the
schema coerces (cost, a decimal in the source, is modelled as an integer;
no claim depends on its fractional part). -/
structure ServiceRow where
  id : String
  type : ServiceType
  date : Nat
  description : Option String
  quantity : Option Int
  cost : Option Int
  beneficiaryId : String
  caseId : Option String
  providedById : String
  location : Option String
  notes : Option String
deriving DecidableEq, Repr

/-- One `auditLog` row: the `action`, the acting `userId` and (standing in
for the JSON `details` payload) the id of the affected entity. -/
structure AuditEntry where
  action : AuditAction
  userId : String
  entityId : String
deriving DecidableEq, Repr

/-- The Entity Store: the tables the handlers touch. -/
structure Store where
  beneficiaries : List Beneficiary
  cases : List CaseRow
  services : List ServiceRow
  auditLog : List AuditEntry
deriving DecidableEq, Repr

/-! ## Validation Engine — `src/lib/validation.ts`

zod semantics used below: `.parse` strips object keys that the schema does
not declare; `.default(v)` fills an absent key; `.partial()` makes every key
optional; `.optional().nullable()` admits absent and null.  Absent and null
are modelled as `none` at the outer `Option` layer of a patch field. -/

/-- Check `z.string().max(hi)` on an optional/nullable field. -/
def optMaxLen (hi : Nat) : Option String → Bool
  | none => true
  | some s => s.length ≤ hi

/-- The `malaysianPhoneSchema` check: regex `^\+60\d{9,10}$`, `.optional().or(z.literal(''))`. -/
def malaysianPhoneOk : Option String → Bool
  | none => true
  | some s =>
    s == "" ||
      ("+60".data.isPrefixOf s.data && (s.data.drop 3).all Char.isDigit &&
        9 ≤ (s.data.drop 3).length && (s.data.drop 3).length ≤ 10)

/-- Check of `z.string().email().optional().or(z.literal(''))`.  The acceptance set of
zod's email regex is abstracted to "contains an `@`"; no claim depends on its
exact extent. -/
def emailFieldOk : Option String → Bool
  | none => true
  | some s => s == "" || s.data.contains '@'

/-- Check of `z.string().cuid()` — zod v3 checks `/^c[^\s-]{8,}$/i`. -/
def cuidOk (s : String) : Bool :=
  ("c".data.isPrefixOf s.data || "C".data.isPrefixOf s.data) &&
    8 ≤ (s.data.drop 1).length &&
    (s.data.drop 1).all (fun ch => !(ch == '-') && !ch.isWhitespace)

/-- The raw JSON body of a beneficiary create request, as typed data.  It
carries every key of `beneficiarySchema` (defaults not yet applied) plus an
`assignedToId` key a caller may send; the schema does not declare that key,
so `.parse` strips it. -/
structure BenBody where
  firstName : String
  lastName : String
  dateOfBirth : Option Nat
  gender : Option Gender
  nationality : Option String
  idNumber : Option String
  phone : Option String
  email : Option String
  address : Option String
  city : Option String
  state : Option String
  postcode : Option String
  emergencyName : Option String
  emergencyPhone : Option String
  emergencyRelation : Option String
  category : BCategory
  status : Option BStatus
  priority : Option Priority
  notes : Option String
  tags : Option (List String)
  source : Option String
  assignedToId : Option String
deriving DecidableEq, Repr

/-- Output of `beneficiarySchema.parse`: defaults applied, unknown keys
(in particular `assignedToId`) stripped. -/
structure BenInput where
  firstName : String
  lastName : String
  dateOfBirth : Option Nat
  gender : Option Gender
  nationality : Option String
  idNumber : Option String
  phone : Option String
  email : Option String
  address : Option String
  city : Option String
  state : Option String
  postcode : Option String
  emergencyName : Option String
  emergencyPhone : Option String
  emergencyRelation : Option String
  category : BCategory
  status : BStatus
  priority : Priority
  notes : Option String
  tags : List String
  source : Option String
deriving DecidableEq, Repr

/-- All field-level issues of `beneficiarySchema` on a create body (zod
reports every violated constraint, not just the first). -/
def benBodyIssues (b : BenBody) : List String :=
  (if b.firstName.length < 1 then ["First name is required"] else []) ++
  (if b.firstName.length > 100 then ["firstName: too long"] else []) ++
  (if b.lastName.length < 1 then ["Last name is required"] else []) ++
  (if b.lastName.length > 100 then ["lastName: too long"] else []) ++
  (if optMaxLen 100 b.nationality then [] else ["nationality: too long"]) ++
  (if optMaxLen 50 b.idNumber then [] else ["idNumber: too long"]) ++
  (if malaysianPhoneOk b.phone then [] else
    ["Invalid Malaysian phone number. Format: +60123456789"]) ++
  (if emailFieldOk b.email then [] else ["Invalid email address"]) ++
  (if optMaxLen 500 b.address then [] else ["address: too long"]) ++
  (if optMaxLen 100 b.city then [] else ["city: too long"]) ++
  (if optMaxLen 100 b.state then [] else ["state: too long"]) ++
  (if optMaxLen 10 b.postcode then [] else ["postcode: too long"]) ++
  (if optMaxLen 100 b.emergencyName then [] else ["emergencyName: too long"]) ++
  (if malaysianPhoneOk b.emergencyPhone then [] else
    ["Invalid Malaysian phone number. Format: +60123456789"]) ++
  (if optMaxLen 50 b.emergencyRelation then [] else ["emergencyRelation: too long"]) ++
  (if optMaxLen 5000 b.notes then [] else ["notes: too long"]) ++
  (if optMaxLen 100 b.source then [] else ["source: too long"])

/-- Runs `beneficiarySchema.parse(body)`: `.ok` with defaults applied and the
undeclared `assignedToId` key stripped, or `.error` (a thrown `ZodError`). -/
def benBodyParse (b : BenBody) : Except (List String) BenInput :=
  if benBodyIssues b = [] then
    .ok
      { firstName := b.firstName, lastName := b.lastName
        dateOfBirth := b.dateOfBirth, gender := b.gender
        nationality := b.nationality, idNumber := b.idNumber
        phone := b.phone, email := b.email, address := b.address
        city := b.city, state := b.state, postcode := b.postcode
        emergencyName := b.emergencyName, emergencyPhone := b.emergencyPhone
        emergencyRelation := b.emergencyRelation, category := b.category
        status := b.status.getD .ACTIVE, priority := b.priority.getD .MEDIUM
        notes := b.notes, tags := b.tags.getD [], source := b.source }
  else .error (benBodyIssues b)

/-- The raw body of a beneficiary PATCH, i.e. the input of
`beneficiarySchema.partial().parse`: every key optional; for fields that are
nullable in the store, `some none` is an explicit null.  An `assignedToId`
key is undeclared and stripped. -/
structure BenPatch where
  firstName : Option String
  lastName : Option String
  dateOfBirth : Option (Option Nat)
  gender : Option (Option Gender)
  nationality : Option (Option String)
  idNumber : Option (Option String)
  phone : Option (Option String)
  email : Option (Option String)
  address : Option (Option String)
  city : Option (Option String)
  state : Option (Option String)
  postcode : Option (Option String)
  emergencyName : Option (Option String)
  emergencyPhone : Option (Option String)
  emergencyRelation : Option (Option String)
  category : Option BCategory
  status : Option BStatus
  priority : Option Priority
  notes : Option (Option String)
  tags : Option (List String)
  source : Option (Option String)
  assignedToId : Option String
deriving DecidableEq, Repr

/-- A constraint applied only when the (nullable) field is present non-null. -/
def optFieldOk {α : Type} (f : α → Bool) : Option (Option α) → Bool
  | some (some x) => f x
  | _ => true

/-- Field-level issues of `beneficiarySchema.partial()` on a patch body. -/
def benPatchIssues (p : BenPatch) : List String :=
  (if p.firstName.all (fun s => 1 ≤ s.length && s.length ≤ 100) then []
    else ["firstName: invalid"]) ++
  (if p.lastName.all (fun s => 1 ≤ s.length && s.length ≤ 100) then []
    else ["lastName: invalid"]) ++
  (if optFieldOk (fun s => s.length ≤ 100) p.nationality then [] else ["nationality: too long"]) ++
  (if optFieldOk (fun s => s.length ≤ 50) p.idNumber then [] else ["idNumber: too long"]) ++
  (if optFieldOk (fun s => malaysianPhoneOk (some s)) p.phone then []
    else ["Invalid Malaysian phone number. Format: +60123456789"]) ++
  (if optFieldOk (fun s => emailFieldOk (some s)) p.email then [] else ["Invalid email address"]) ++
  (if optFieldOk (fun s => s.length ≤ 500) p.address then [] else ["address: too long"]) ++
  (if optFieldOk (fun s => s.length ≤ 100) p.city then [] else ["city: too long"]) ++
  (if optFieldOk (fun s => s.length ≤ 100) p.state then [] else ["state: too long"]) ++
  (if optFieldOk (fun s => s.length ≤ 10) p.postcode then [] else ["postcode: too long"]) ++
  (if optFieldOk (fun s => s.length ≤ 100) p.emergencyName then []
    else ["emergencyName: too long"]) ++
  (if optFieldOk (fun s => malaysianPhoneOk (some s)) p.emergencyPhone then []
    else ["Invalid Malaysian phone number. Format: +60123456789"]) ++
  (if optFieldOk (fun s => s.length ≤ 50) p.emergencyRelation then []
    else ["emergencyRelation: too long"]) ++
  (if optFieldOk (fun s => s.length ≤ 5000) p.notes then [] else ["notes: too long"]) ++
  (if optFieldOk (fun s => s.length ≤ 100) p.source then [] else ["source: too long"])

/-- Runs `beneficiarySchema.partial().parse(body)`. -/
def benPatchParse (p : BenPatch) : Except (List String) BenPatch :=
  if benPatchIssues p = [] then .ok p else .error (benPatchIssues p)

/-- Effect of `prisma.beneficiary.update({ data: validated })`: present keys overwrite,
absent keys are untouched.  The stripped `assignedToId` key is never part of
`validated`, so `id`, `createdById` and `assignedToId` cannot change. -/
def applyBenPatch (b : Beneficiary) (p : BenPatch) : Beneficiary :=
  { b with
    firstName := p.firstName.getD b.firstName
    lastName := p.lastName.getD b.lastName
    dateOfBirth := p.dateOfBirth.getD b.dateOfBirth
    gender := p.gender.getD b.gender
    nationality := p.nationality.getD b.nationality
    idNumber := p.idNumber.getD b.idNumber
    phone := p.phone.getD b.phone
    email := p.email.getD b.email
    address := p.address.getD b.address
    city := p.city.getD b.city
    state := p.state.getD b.state
    postcode := p.postcode.getD b.postcode
    emergencyName := p.emergencyName.getD b.emergencyName
    emergencyPhone := p.emergencyPhone.getD b.emergencyPhone
    emergencyRelation := p.emergencyRelation.getD b.emergencyRelation
    category := p.category.getD b.category
    status := p.status.getD b.status
    priority := p.priority.getD b.priority
    notes := p.notes.getD b.notes
    tags := p.tags.getD b.tags
    source := p.source.getD b.source }

/-- Raw body of a case create request (`caseSchema`, defaults pending). -/
structure CaseBody where
  title : String
  description : String
  type : CaseType
  priority : Option Priority
  status : Option CStatus
  beneficiaryId : String
deriving DecidableEq, Repr

/-- Output of `caseSchema.parse` (defaults applied). -/
structure CaseInput where
  title : String
  description : String
  type : CaseType
  priority : Priority
  status : CStatus
  beneficiaryId : String
deriving DecidableEq, Repr

/-- Field-level issues of `caseSchema`. -/
def caseBodyIssues (c : CaseBody) : List String :=
  (if c.title.length < 1 then ["Title is required"] else []) ++
  (if c.title.length > 200 then ["title: too long"] else []) ++
  (if c.description.length < 1 then ["Description is required"] else []) ++
  (if c.description.length > 5000 then ["description: too long"] else []) ++
  (if cuidOk c.beneficiaryId then [] else ["beneficiaryId: invalid cuid"])

/-- Runs `caseSchema.parse(body)`. -/
def caseBodyParse (c : CaseBody) : Except (List String) CaseInput :=
  if caseBodyIssues c = [] then
    .ok
      { title := c.title, description := c.description, type := c.type
        priority := c.priority.getD .MEDIUM, status := c.status.getD .OPEN
        beneficiaryId := c.beneficiaryId }
  else .error (caseBodyIssues c)

/-- Raw body of a case PATCH (`caseSchema.partial()`). -/
structure CasePatch where
  title : Option String
  description : Option String
  type : Option CaseType
  priority : Option Priority
  status : Option CStatus
  beneficiaryId : Option String
deriving DecidableEq, Repr

/-- Field-level issues of `caseSchema.partial()`. -/
def casePatchIssues (p : CasePatch) : List String :=
  (if p.title.all (fun s => 1 ≤ s.length && s.length ≤ 200) then [] else ["title: invalid"]) ++
  (if p.description.all (fun s => 1 ≤ s.length && s.length ≤ 5000) then []
    else ["description: invalid"]) ++
  (if p.beneficiaryId.all cuidOk then [] else ["beneficiaryId: invalid cuid"])

/-- Runs `caseSchema.partial().parse(body)`. -/
def casePatchParse (p : CasePatch) : Except (List String) CasePatch :=
  if casePatchIssues p = [] then .ok p else .error (casePatchIssues p)

/-- Effect of `prisma.case.update({ data: validated })` (before the `additionalData`
spread): present keys overwrite; `resolvedAt`, `assignedTo`, `createdById`
are not part of the schema and stay untouched here. -/
def applyCasePatch (c : CaseRow) (p : CasePatch) : CaseRow :=
  { c with
    title := p.title.getD c.title
    description := p.description.getD c.description
    type := p.type.getD c.type
    priority := p.priority.getD c.priority
    status := p.status.getD c.status
    beneficiaryId := p.beneficiaryId.getD c.beneficiaryId }

/-- Raw body of a service create request (`serviceSchema`, no defaults). -/
structure ServiceBody where
  type : ServiceType
  date : Nat
  description : Option String
  quantity : Option Int
  cost : Option Int
  beneficiaryId : String
  caseId : Option String
  location : Option String
  notes : Option String
deriving DecidableEq, Repr

/-- Field-level issues of `serviceSchema`. -/
def serviceBodyIssues (v : ServiceBody) : List String :=
  (if optMaxLen 5000 v.description then [] else ["description: too long"]) ++
  (if v.quantity.all (fun q => decide (0 < q)) then [] else ["quantity: must be positive"]) ++
  (if v.cost.all (fun q => decide (0 < q)) then [] else ["cost: must be positive"]) ++
  (if cuidOk v.beneficiaryId then [] else ["beneficiaryId: invalid cuid"]) ++
  (if v.caseId.all cuidOk then [] else ["caseId: invalid cuid"]) ++
  (if optMaxLen 200 v.location then [] else ["location: too long"]) ++
  (if optMaxLen 5000 v.notes then [] else ["notes: too long"])

/-- Runs `serviceSchema.parse(body)`. -/
def serviceBodyParse (v : ServiceBody) : Except (List String) ServiceBody :=
  if serviceBodyIssues v = [] then .ok v else .error (serviceBodyIssues v)

/-- Raw body of a service PATCH (`serviceSchema.partial()`). -/
structure ServicePatch where
  type : Option ServiceType
  date : Option Nat
  description : Option (Option String)
  quantity : Option (Option Int)
  cost : Option (Option Int)
  beneficiaryId : Option String
  caseId : Option (Option String)
  location : Option (Option String)
  notes : Option (Option String)
deriving DecidableEq, Repr

/-- Field-level issues of `serviceSchema.partial()`. -/
def servicePatchIssues (p : ServicePatch) : List String :=
  (if optFieldOk (fun s => s.length ≤ 5000) p.description then []
    else ["description: too long"]) ++
  (if optFieldOk (fun q : Int => decide (0 < q)) p.quantity then []
    else ["quantity: must be positive"]) ++
  (if optFieldOk (fun q : Int => decide (0 < q)) p.cost then []
    else ["cost: must be positive"]) ++
  (if p.beneficiaryId.all cuidOk then [] else ["beneficiaryId: invalid cuid"]) ++
  (if optFieldOk cuidOk p.caseId then [] else ["caseId: invalid cuid"]) ++
  (if optFieldOk (fun s => s.length ≤ 200) p.location then [] else ["location: too long"]) ++
  (if optFieldOk (fun s => s.length ≤ 5000) p.notes then [] else ["notes: too long"])

/-- Runs `serviceSchema.partial().parse(body)`. -/
def servicePatchParse (p : ServicePatch) : Except (List String) ServicePatch :=
  if servicePatchIssues p = [] then .ok p else .error (servicePatchIssues p)

/-- Effect of `prisma.service.update({ data: validated })`: present keys overwrite;
`providedById` is not part of the schema and stays untouched. -/
def applyServicePatch (s : ServiceRow) (p : ServicePatch) : ServiceRow :=
  { s with
    type := p.type.getD s.type
    date := p.date.getD s.date
    description := p.description.getD s.description
    quantity := p.quantity.getD s.quantity
    cost := p.cost.getD s.cost
    beneficiaryId := p.beneficiaryId.getD s.beneficiaryId
    caseId := p.caseId.getD s.caseId
    location := p.location.getD s.location
    notes := p.notes.getD s.notes }

/-! ## Authentication helpers — `src/lib/auth` (not among the provided sources) -/

/-- Modelled from the spec: `requireAuth` from `src/lib/auth` is not among the
provided sources.  Per §4.2 ("Unauthenticated actor → DENY for every action
(fails closed)") and §7 ("Unauthorized (no/invalid actor identity)"), it
returns the authenticated user or throws an error whose message is
`Unauthorized`, which the route handlers catch by message. -/
def requireAuth (auth : Option User) : Except String User :=
  match auth with
  | none => .error "Unauthorized"
  | some u => .ok u

/-- Modelled from the spec: `requireRole` from `src/lib/auth` is not among the
provided sources.  Per §4.2 and §7 it fails closed: no actor throws
`Unauthorized`; an actor whose role is outside the allowed list throws
`Forbidden`.  The route handlers catch both by message. -/
def requireRole (roles : List Role) (auth : Option User) : Except String User :=
  match auth with
  | none => .error "Unauthorized"
  | some u => if roles.contains u.role then .ok u else .error "Forbidden"

/-! ## Responses -/

/-- An error response body: either `{ error: msg }` or the ZodError shape
`{ error: 'Validation error', details: issues }`. -/
inductive ErrBody where
  | plain (msg : String)
  | zodIssues (issues : List String)
deriving DecidableEq, Repr

/-- A `NextResponse.json` result: a payload with its HTTP status, or an
error body with its HTTP status. -/
inductive ApiOut (α : Type) where
  | payload (status : Nat) (value : α)
  | failure (status : Nat) (body : ErrBody)
deriving DecidableEq, Repr

/-! ## Store lookups (`prisma.*.findUnique`) and writes -/

/-- Lookup `prisma.beneficiary.findUnique({ where: { id } })`. -/
def Store.findBeneficiary (s : Store) (id : String) : Option Beneficiary :=
  s.beneficiaries.find? (fun b => b.id == id)

/-- Lookup `prisma.beneficiary.findUnique({ where: { idNumber } })`. -/
def Store.findBeneficiaryByIdNumber (s : Store) (n : String) : Option Beneficiary :=
  s.beneficiaries.find? (fun b => b.idNumber == some n)

/-- Lookup `prisma.case.findUnique({ where: { id } })`. -/
def Store.findCase (s : Store) (id : String) : Option CaseRow :=
  s.cases.find? (fun c => c.id == id)

/-- Lookup `prisma.service.findUnique({ where: { id } })`. -/
def Store.findService (s : Store) (id : String) : Option ServiceRow :=
  s.services.find? (fun v => v.id == id)

/-- Write of `prisma.auditLog.create`: append one row. -/
def Store.logAudit (s : Store) (e : AuditEntry) : Store :=
  { s with auditLog := s.auditLog ++ [e] }

/-! ## Route handlers

Each handler takes the authenticated actor (`none` = no session), the request
parameters/body, a store snapshot, and returns the response together with the
resulting store.  Mutation handlers additionally take:
  * `newId` — the cuid the store mints for a created row;
  * `auditOk` — whether the separate `prisma.auditLog.create` I/O call
    succeeds (the write-then-log pair is two awaited calls, not one
    transaction, so the log call can fail after the write persisted; the
    `catch` block then reports a 500);
  * `now` — the clock read (`new Date()`), for `updateCase`. -/

/-- Handler `GET /api/beneficiaries/[id]` (`src/app/api/beneficiaries/[id]/route.ts`). -/
def getBeneficiaryById (auth : Option User) (id : String) (s : Store) : ApiOut Beneficiary :=
  match requireAuth auth with
  | .error e => .failure 401 (.plain e)
  | .ok user =>
    match s.findBeneficiary id with
    | none => .failure 404 (.plain "Beneficiary not found")
    | some b =>
      if (user.role = .VOLUNTEER ∨ user.role = .FIELD_WORKER) ∧
          b.createdById ≠ user.id ∧ b.assignedToId ≠ user.id then
        .failure 403 (.plain "Forbidden")
      else .payload 200 b

/-- Handler `GET /api/cases/[id]`: scoping is creator or membership of `assignedTo`. -/
def getCaseById (auth : Option User) (id : String) (s : Store) : ApiOut CaseRow :=
  match requireAuth auth with
  | .error e => .failure 401 (.plain e)
  | .ok user =>
    match s.findCase id with
    | none => .failure 404 (.plain "Case not found")
    | some c =>
      if (user.role = .VOLUNTEER ∨ user.role = .FIELD_WORKER) ∧
          c.createdById ≠ user.id ∧ ¬ c.assignedToIds.contains user.id then
        .failure 403 (.plain "Forbidden")
      else .payload 200 c

/-- Handler `GET /api/services/[id]`: scoping is `providedById` only. -/
def getServiceById (auth : Option User) (id : String) (s : Store) : ApiOut ServiceRow :=
  match requireAuth auth with
  | .error e => .failure 401 (.plain e)
  | .ok user =>
    match s.findService id with
    | none => .failure 404 (.plain "Service not found")
    | some v =>
      if (user.role = .VOLUNTEER ∨ user.role = .FIELD_WORKER) ∧
          v.providedById ≠ user.id then
        .failure 403 (.plain "Forbidden")
      else .payload 200 v

/-- Builds the stored row of `prisma.beneficiary.create({ data: {
...validated, createdById, assignedToId } })`. -/
def benInputToRow (v : BenInput) (id createdById assignedToId : String) : Beneficiary :=
  { id := id, firstName := v.firstName, lastName := v.lastName
    dateOfBirth := v.dateOfBirth, gender := v.gender, nationality := v.nationality
    idNumber := v.idNumber, phone := v.phone, email := v.email
    address := v.address, city := v.city, state := v.state, postcode := v.postcode
    emergencyName := v.emergencyName, emergencyPhone := v.emergencyPhone
    emergencyRelation := v.emergencyRelation, category := v.category
    status := v.status, priority := v.priority, notes := v.notes
    tags := v.tags, source := v.source
    createdById := createdById, assignedToId := assignedToId }

/-- The create-path duplicate-`idNumber` guard (`if (validated.idNumber)`
is a JS truthiness test: `null`, absent and `''` all skip the lookup). -/
def benCreateDupHit (v : BenInput) (s : Store) : Bool :=
  match v.idNumber with
  | some n => if n ≠ "" then (s.findBeneficiaryByIdNumber n).isSome else false
  | none => false

/-- Modelled from the spec: the Prisma schema is not among the provided
sources; §3 declares `idNumber` "if present must be unique across all
beneficiaries" (an `@unique` column, which `findUnique({ where: { idNumber } })`
also presupposes), and §5 requires the store itself to enforce it.  A write of
row `nb` violates the unique index iff its `idNumber` is non-null and a
*different* row already holds the same value (multiple nulls are allowed). -/
def idNumberConflict (nb : Beneficiary) (s : Store) : Bool :=
  match nb.idNumber with
  | some n => (s.beneficiaries.find? (fun x => x.idNumber == some n && !(x.id == nb.id))).isSome
  | none => false

/-- Handler `POST /api/beneficiaries`.  `assignedToId: validated.assignedToId ||
user.id` — the schema declares no `assignedToId` key, so `.parse` stripped
it, the left operand is `undefined`, and the result is always `user.id`. -/
def createBeneficiary (auth : Option User) (body : BenBody) (newId : String)
    (auditOk : Bool) (s : Store) : ApiOut Beneficiary × Store :=
  match requireRole [.SUPER_ADMIN, .ADMIN, .STAFF, .FIELD_WORKER] auth with
  | .error e => (.failure 403 (.plain e), s)
  | .ok user =>
    match benBodyParse body with
    | .error issues => (.failure 400 (.zodIssues issues), s)
    | .ok validated =>
      if benCreateDupHit validated s then
        (.failure 400 (.plain "A beneficiary with this ID number already exists"), s)
      else
        let nb := benInputToRow validated newId user.id user.id
        if idNumberConflict nb s then
          -- the store's unique index rejects the insert (Prisma P2002); the
          -- handler's catch reports it as the generic 500
          (.failure 500 (.plain "Failed to create beneficiary"), s)
        else
          let s1 := { s with beneficiaries := s.beneficiaries ++ [nb] }
          if auditOk then
            (.payload 201 nb, s1.logAudit ⟨.BENEFICIARY_CREATED, user.id, newId⟩)
          else (.failure 500 (.plain "Failed to create beneficiary"), s1)

/-- The update-path duplicate-`idNumber` guard: `if (validated.idNumber &&
validated.idNumber !== existing.idNumber)`. -/
def benUpdateDupHit (v : BenPatch) (existing : Beneficiary) (s : Store) : Bool :=
  match v.idNumber with
  | some (some n) =>
    if n ≠ "" ∧ some n ≠ existing.idNumber then (s.findBeneficiaryByIdNumber n).isSome
    else false
  | _ => false

/-- Handler `PATCH /api/beneficiaries/[id]`. -/
def updateBeneficiary (auth : Option User) (id : String) (body : BenPatch)
    (auditOk : Bool) (s : Store) : ApiOut Beneficiary × Store :=
  match requireRole [.SUPER_ADMIN, .ADMIN, .STAFF, .FIELD_WORKER] auth with
  | .error e => (.failure 403 (.plain e), s)
  | .ok user =>
    match s.findBeneficiary id with
    | none => (.failure 404 (.plain "Beneficiary not found"), s)
    | some existing =>
      if user.role = .FIELD_WORKER ∧
          existing.createdById ≠ user.id ∧ existing.assignedToId ≠ user.id then
        (.failure 403 (.plain "Forbidden"), s)
      else
        match benPatchParse body with
        | .error issues => (.failure 400 (.zodIssues issues), s)
        | .ok validated =>
          if benUpdateDupHit validated existing s then
            (.failure 400 (.plain "A beneficiary with this ID number already exists"), s)
          else
            let nb := applyBenPatch existing validated
            let s1 := { s with beneficiaries :=
              s.beneficiaries.map (fun b => if b.id == id then nb else b) }
            if auditOk then
              (.payload 200 nb, s1.logAudit ⟨.BENEFICIARY_UPDATED, user.id, id⟩)
            else (.failure 500 (.plain "Failed to update beneficiary"), s1)

/-- Handler `DELETE /api/beneficiaries/[id]` — soft delete: an update setting
`status = 'ARCHIVED'`, never a row removal. -/
def archiveBeneficiary (auth : Option User) (id : String) (auditOk : Bool)
    (s : Store) : ApiOut String × Store :=
  match requireRole [.SUPER_ADMIN, .ADMIN] auth with
  | .error e => (.failure 403 (.plain e), s)
  | .ok user =>
    match s.findBeneficiary id with
    | none => (.failure 404 (.plain "Beneficiary not found"), s)
    | some _ =>
      let s1 := { s with beneficiaries :=
        s.beneficiaries.map (fun b => if b.id == id then { b with status := .ARCHIVED } else b) }
      if auditOk then
        (.payload 200 "Beneficiary archived successfully",
          s1.logAudit ⟨.BENEFICIARY_ARCHIVED, user.id, id⟩)
      else (.failure 500 (.plain "Failed to delete beneficiary"), s1)

/-- Handler `POST /api/cases`. -/
def createCase (auth : Option User) (body : CaseBody) (newId : String)
    (auditOk : Bool) (s : Store) : ApiOut CaseRow × Store :=
  match requireRole [.SUPER_ADMIN, .ADMIN, .STAFF, .FIELD_WORKER] auth with
  | .error e => (.failure 403 (.plain e), s)
  | .ok user =>
    match caseBodyParse body with
    | .error issues => (.failure 400 (.zodIssues issues), s)
    | .ok validated =>
      match s.findBeneficiary validated.beneficiaryId with
      | none => (.failure 404 (.plain "Beneficiary not found"), s)
      | some _ =>
        let nc : CaseRow :=
          { id := newId, title := validated.title, description := validated.description
            type := validated.type, priority := validated.priority
            status := validated.status, beneficiaryId := validated.beneficiaryId
            createdById := user.id, assignedToIds := [], resolvedAt := none }
        let s1 := { s with cases := s.cases ++ [nc] }
        if auditOk then
          (.payload 201 nc, s1.logAudit ⟨.CASE_CREATED, user.id, newId⟩)
        else (.failure 500 (.plain "Failed to create case"), s1)

/-- Handler `PATCH /api/cases/[id]`.  `additionalData.resolvedAt = new Date()` is
added exactly when the validated status is `RESOLVED` and the existing
status is not. -/
def updateCase (auth : Option User) (id : String) (body : CasePatch)
    (auditOk : Bool) (now : Nat) (s : Store) : ApiOut CaseRow × Store :=
  match requireRole [.SUPER_ADMIN, .ADMIN, .STAFF, .FIELD_WORKER] auth with
  | .error e => (.failure 403 (.plain e), s)
  | .ok user =>
    match s.findCase id with
    | none => (.failure 404 (.plain "Case not found"), s)
    | some existing =>
      if user.role = .FIELD_WORKER ∧
          existing.createdById ≠ user.id ∧ ¬ existing.assignedToIds.contains user.id then
        (.failure 403 (.plain "Forbidden"), s)
      else
        match casePatchParse body with
        | .error issues => (.failure 400 (.zodIssues issues), s)
        | .ok validated =>
          let base := applyCasePatch existing validated
          let nc :=
            if validated.status = some .RESOLVED ∧ existing.status ≠ .RESOLVED then
              { base with resolvedAt := some now }
            else base
          let s1 := { s with cases := s.cases.map (fun c => if c.id == id then nc else c) }
          if auditOk then
            (.payload 200 nc, s1.logAudit ⟨.CASE_UPDATED, user.id, id⟩)
          else (.failure 500 (.plain "Failed to update case"), s1)

/-- Handler `DELETE /api/cases/[id]` — a physical delete.  Modelled from the spec:
the Prisma schema is not among the provided sources; §3/§4.4 state that
deleting a Case cascades deletion of its dependent Services. -/
def deleteCase (auth : Option User) (id : String) (auditOk : Bool)
    (s : Store) : ApiOut String × Store :=
  match requireRole [.SUPER_ADMIN, .ADMIN] auth with
  | .error e => (.failure 403 (.plain e), s)
  | .ok user =>
    match s.findCase id with
    | none => (.failure 404 (.plain "Case not found"), s)
    | some _ =>
      let s1 := { s with
        cases := s.cases.filter (fun c => !(c.id == id))
        services := s.services.filter (fun v => !(v.caseId == some id)) }
      if auditOk then
        (.payload 200 "Case deleted successfully", s1.logAudit ⟨.CASE_DELETED, user.id, id⟩)
      else (.failure 500 (.plain "Failed to delete case"), s1)

/-- Handler `POST /api/services` (`src/app/api/services/route.ts`): checks that the
referenced beneficiary exists and — when `validated.caseId` is truthy —
that the referenced case exists, before creating. -/
def createService (auth : Option User) (body : ServiceBody) (newId : String)
    (auditOk : Bool) (s : Store) : ApiOut ServiceRow × Store :=
  match requireRole [.SUPER_ADMIN, .ADMIN, .STAFF, .FIELD_WORKER] auth with
  | .error e => (.failure 403 (.plain e), s)
  | .ok user =>
    match serviceBodyParse body with
    | .error issues => (.failure 400 (.zodIssues issues), s)
    | .ok validated =>
      match s.findBeneficiary validated.beneficiaryId with
      | none => (.failure 404 (.plain "Beneficiary not found"), s)
      | some _ =>
        let caseMissing : Bool :=
          match validated.caseId with
          | some cid => if cid ≠ "" then (s.findCase cid).isNone else false
          | none => false
        if caseMissing then (.failure 404 (.plain "Case not found"), s)
        else
          let nv : ServiceRow :=
            { id := newId, type := validated.type, date := validated.date
              description := validated.description, quantity := validated.quantity
              cost := validated.cost, beneficiaryId := validated.beneficiaryId
              caseId := validated.caseId, providedById := user.id
              location := validated.location, notes := validated.notes }
          let s1 := { s with services := s.services ++ [nv] }
          if auditOk then
            (.payload 201 nv, s1.logAudit ⟨.SERVICE_CREATED, user.id, newId⟩)
          else (.failure 500 (.plain "Failed to create service"), s1)

/-- Modelled from the spec: the Prisma schema is not among the provided
sources; §3 makes a Service's `beneficiary` reference mandatory and its
`case` reference optional (relations the handlers `include`, hence declared
foreign keys), and §5 leaves their enforcement to the store.  A written
service row violates a foreign key iff its `beneficiaryId` references no
beneficiary, or its `caseId` is non-null and references no case.  (The
service and case *create* handlers check their references before writing —
and the schemas reject an empty-string id — so their writes cannot violate
it; the service *update* handler checks nothing.) -/
def serviceFkViolation (nv : ServiceRow) (s : Store) : Bool :=
  (s.findBeneficiary nv.beneficiaryId).isNone ||
    (match nv.caseId with
     | some cid => (s.findCase cid).isNone
     | none => false)

/-- Handler `PATCH /api/services/[id]`: role gate, ownership check for FIELD_WORKER,
schema validation, then the update — with no existence check on a
`beneficiaryId` or `caseId` present in the patch. -/
def updateService (auth : Option User) (id : String) (body : ServicePatch)
    (auditOk : Bool) (s : Store) : ApiOut ServiceRow × Store :=
  match requireRole [.SUPER_ADMIN, .ADMIN, .STAFF, .FIELD_WORKER] auth with
  | .error e => (.failure 403 (.plain e), s)
  | .ok user =>
    match s.findService id with
    | none => (.failure 404 (.plain "Service not found"), s)
    | some existing =>
      if user.role = .FIELD_WORKER ∧ existing.providedById ≠ user.id then
        (.failure 403 (.plain "Forbidden"), s)
      else
        match servicePatchParse body with
        | .error issues => (.failure 400 (.zodIssues issues), s)
        | .ok validated =>
          let nv := applyServicePatch existing validated
          if serviceFkViolation nv s then
            -- no existence check ran; the store's foreign-key constraint
            -- rejects the write (Prisma P2003) and the handler's catch
            -- reports it as the generic 500
            (.failure 500 (.plain "Failed to update service"), s)
          else
            let s1 := { s with services := s.services.map (fun v => if v.id == id then nv else v) }
            if auditOk then
              (.payload 200 nv, s1.logAudit ⟨.SERVICE_UPDATED, user.id, id⟩)
            else (.failure 500 (.plain "Failed to update service"), s1)

/-- Handler `DELETE /api/services/[id]` — a physical delete of one service row. -/
def deleteService (auth : Option User) (id : String) (auditOk : Bool)
    (s : Store) : ApiOut String × Store :=
  match requireRole [.SUPER_ADMIN, .ADMIN] auth with
  | .error e => (.failure 403 (.plain e), s)
  | .ok user =>
    match s.findService id with
    | none => (.failure 404 (.plain "Service not found"), s)
    | some _ =>
      let s1 := { s with services := s.services.filter (fun v => !(v.id == id)) }
      if auditOk then
        (.payload 200 "Service deleted successfully",
          s1.logAudit ⟨.SERVICE_DELETED, user.id, id⟩)
      else (.failure 500 (.plain "Failed to delete service"), s1)

/-! ## `GET /api/beneficiaries` — list with pagination and filtering

The handler builds a `where` object by mutating one JS object: the search
block sets `where.OR`, the category/status blocks set their own keys, and the
role-based block then assigns `where.OR` again for VOLUNTEER / FIELD_WORKER —
an assignment to the same key, which replaces any search `OR` already
there. -/

/-- Substring occurrence over character lists (an empty needle matches). -/
def isSubstring : List Char → List Char → Bool
  | q, [] => q.isEmpty
  | q, c :: t => q.isPrefixOf (c :: t) || isSubstring q t

/-- Substring test (`contains` in a Prisma string filter). -/
def strContains (hay q : String) : Bool :=
  isSubstring q.data hay.data

/-- Case-insensitive substring test (`contains` with `mode: 'insensitive'`). -/
def strContainsCI (hay q : String) : Bool :=
  isSubstring (q.data.map Char.toLower) (hay.data.map Char.toLower)

/-- The enum value a `category` query-string filter compares against. -/
def bcategoryToString : BCategory → String
  | .HOMELESS => "HOMELESS" | .ELDERLY => "ELDERLY" | .DISABLED => "DISABLED"
  | .LOW_INCOME => "LOW_INCOME" | .REFUGEE => "REFUGEE" | .ORPHAN => "ORPHAN"
  | .SICK => "SICK" | .OTHER => "OTHER"

/-- The enum value a `status` query-string filter compares against. -/
def bstatusToString : BStatus → String
  | .ACTIVE => "ACTIVE" | .INACTIVE => "INACTIVE"
  | .ARCHIVED => "ARCHIVED" | .DECEASED => "DECEASED"

/-- The value held by the `where.OR` key: the search disjunction or the
role-scope disjunction. -/
inductive BenWhereOr where
  | searchOr (q : String)
  | scopeOr (uid : String)
deriving DecidableEq, Repr

/-- The `where` object of the beneficiary list query. -/
structure BenWhere where
  or : Option BenWhereOr := none
  category : Option String := none
  status : Option String := none
deriving DecidableEq, Repr

/-- Evaluation of a `where.OR` value on one row (null columns never match a
`contains` filter). -/
def benMatchesOr (o : BenWhereOr) (b : Beneficiary) : Bool :=
  match o with
  | .searchOr q =>
    strContainsCI b.firstName q || strContainsCI b.lastName q ||
    (match b.phone with | some p => strContains p q | none => false) ||
    (match b.email with | some e => strContainsCI e q | none => false) ||
    (match b.idNumber with | some n => strContains n q | none => false)
  | .scopeOr uid => b.createdById == uid || b.assignedToId == uid

/-- Evaluation of the whole `where` object on one row (top-level keys are
conjoined by Prisma). -/
def benMatchesWhere (w : BenWhere) (b : Beneficiary) : Bool :=
  (match w.or with | some o => benMatchesOr o b | none => true) &&
  (match w.category with | some c => bcategoryToString b.category == c | none => true) &&
  (match w.status with | some st => bstatusToString b.status == st | none => true)

/-- The `where`-building sequence of the handler.  Empty query-string values
(`searchParams.get(k) || ''`) are falsy and skip their block.  The role block
assigns `where.OR` unconditionally for VOLUNTEER / FIELD_WORKER, replacing a
search `OR` set above it. -/
def buildBeneficiaryWhere (user : User) (search category status : String) : BenWhere :=
  let w : BenWhere := {}
  let w := if search ≠ "" then { w with or := some (.searchOr search) } else w
  let w := if category ≠ "" then { w with category := some category } else w
  let w := if status ≠ "" then { w with status := some status } else w
  if user.role = .VOLUNTEER ∨ user.role = .FIELD_WORKER then
    { w with or := some (.scopeOr user.id) }
  else w

/-- The list response: `{ beneficiaries, pagination: { page, limit, total,
totalPages } }`. -/
structure BenListOut where
  items : List Beneficiary
  page : Nat
  limit : Nat
  total : Nat
  totalPages : Nat
deriving DecidableEq, Repr

/-- Handler `GET /api/beneficiaries`: `count` and `findMany` run against the same
`where`; `skip = (page - 1) * limit`; `totalPages = Math.ceil(total / limit)`
(ordering by `createdAt` is presentation and not modelled). -/
def listBeneficiaries (auth : Option User) (search category status : String)
    (page limit : Nat) (s : Store) : ApiOut BenListOut :=
  match requireAuth auth with
  | .error e => .failure 401 (.plain e)
  | .ok user =>
    let w := buildBeneficiaryWhere user search category status
    let rows := s.beneficiaries.filter (benMatchesWhere w)
    let total := rows.length
    .payload 200
      { items := (rows.drop ((page - 1) * limit)).take limit
        page := page, limit := limit, total := total
        totalPages := (total + limit - 1) / limit }

/-- Modelled from the spec (§4.2): the scope predicate for a scoped role is
*conjoined* with the caller's filters — row matches the free-text search, the
category filter, the status filter, and (for STAFF / FIELD_WORKER /
VOLUNTEER) the creator-or-assignee scope.  Stated from the spec's words for
comparison against `buildBeneficiaryWhere`. -/
def specScopedBenMatch (user : User) (search category status : String)
    (b : Beneficiary) : Bool :=
  (search == "" || benMatchesOr (.searchOr search) b) &&
  (category == "" || bcategoryToString b.category == category) &&
  (status == "" || bstatusToString b.status == status) &&
  (if user.role = .STAFF ∨ user.role = .FIELD_WORKER ∨ user.role = .VOLUNTEER then
    benMatchesOr (.scopeOr user.id) b
  else true)

/-- The total a conjoined-scope list query would report (spec side). -/
def specScopedBenCount (user : User) (search category status : String) (s : Store) : Nat :=
  (s.beneficiaries.filter (specScopedBenMatch user search category status)).length

/-! ## Helper lemmas -/

/-- Replacing the (key-matched) row in a list and then looking the key up
finds the replacement exactly when the original lookup found a row. -/
theorem find?_map_replace {α : Type} (key : α → String) (id : String) (n : α)
    (hn : key n = id) (l : List α) :
    (l.map (fun a => if key a == id then n else a)).find? (fun a => key a == id)
      = (l.find? (fun a => key a == id)).map (fun _ => n) := by
  induction l with
  | nil => rfl
  | cons a t ih =>
    by_cases h : key a = id
    · simp [List.find?_cons, h, hn]
    · simpa [List.find?_cons, h] using ih

/-! ## Concrete fixtures for counterexamples and witnesses -/

/-- A beneficiary row with the given identity/ownership fields and every
optional field empty. -/
def mkBen (id first last creator assignee : String) (st : BStatus)
    (idNum : Option String) : Beneficiary :=
  { id := id, firstName := first, lastName := last
    dateOfBirth := none, gender := none, nationality := none, idNumber := idNum
    phone := none, email := none, address := none, city := none, state := none
    postcode := none, emergencyName := none, emergencyPhone := none
    emergencyRelation := none, category := .HOMELESS, status := st
    priority := .MEDIUM, notes := none, tags := [], source := none
    createdById := creator, assignedToId := assignee }

/-- A beneficiary-patch body with every key absent. -/
def benPatchNone : BenPatch :=
  { firstName := none, lastName := none, dateOfBirth := none, gender := none
    nationality := none, idNumber := none, phone := none, email := none
    address := none, city := none, state := none, postcode := none
    emergencyName := none, emergencyPhone := none, emergencyRelation := none
    category := none, status := none, priority := none, notes := none
    tags := none, source := none, assignedToId := none }

/-- A service-patch body with every key absent. -/
def servicePatchNone : ServicePatch :=
  { type := none, date := none, description := none, quantity := none
    cost := none, beneficiaryId := none, caseId := none, location := none
    notes := none }

def uSuper : User := ⟨"u-super", .SUPER_ADMIN⟩
def uAdmin : User := ⟨"u-admin", .ADMIN⟩
def uStaff : User := ⟨"u-staff", .STAFF⟩
def uFw : User := ⟨"u-fw", .FIELD_WORKER⟩
def uVol : User := ⟨"u-vol", .VOLUNTEER⟩

/-- Created by `u-other`, assigned to the volunteer `u-vol`. -/
def benV : Beneficiary := mkBen "cben00000001" "Amina" "Yusof" "u-other" "u-vol" .ACTIVE none

/-- Created by `u-other`, the volunteer `u-vol` among its assignees. -/
def caseV : CaseRow :=
  { id := "ccase0000001", title := "Food aid", description := "Needs food support"
    type := .FOOD, priority := .MEDIUM, status := .OPEN
    beneficiaryId := "cben00000001", createdById := "u-other"
    assignedToIds := ["u-vol"], resolvedAt := none }

/-- Provided by the volunteer `u-vol`. -/
def svcV : ServiceRow :=
  { id := "csvc00000001", type := .FOOD_DISTRIBUTION, date := 10
    description := none, quantity := none, cost := none
    beneficiaryId := "cben00000001", caseId := none, providedById := "u-vol"
    location := none, notes := none }

/-- One beneficiary, one case, one service, empty audit log. -/
def store1 : Store := ⟨[benV], [caseV], [svcV], []⟩

/-! ## C1 — single-entity read scoping -/

/-- C1, counterexample: the claim includes STAFF among the scoped roles, but
the permission block of every single-entity GET checks only VOLUNTEER and
FIELD_WORKER — a STAFF actor who is neither creator nor assignee of an
existing beneficiary reads it successfully instead of receiving Forbidden. -/
theorem staff_unscoped_read_cex :
    (uStaff.id ≠ benV.createdById ∧ uStaff.id ≠ benV.assignedToId) ∧
    getBeneficiaryById (some uStaff) "cben00000001" store1 = .payload 200 benV :=
  ⟨by decide, rfl⟩

/-- C1 (amended): for an authenticated actor whose role is VOLUNTEER or
FIELD_WORKER, the single-entity read of an existing entity succeeds iff the
actor is its creator or one of its assignees (`createdById`/`assignedToId`
for Beneficiary, `createdById`/membership of `assignedTo` for Case,
`providedById` for Service); otherwise it returns Forbidden.  A STAFF
actor's single-entity reads succeed unconditionally on existing entities. -/
theorem read_scoping_scoped_roles
    (u w : User) (s : Store) (bid cid sid : String)
    (b : Beneficiary) (c : CaseRow) (v : ServiceRow)
    (hu : u.role = .VOLUNTEER ∨ u.role = .FIELD_WORKER)
    (hw : w.role = .STAFF)
    (hb : s.findBeneficiary bid = some b)
    (hc : s.findCase cid = some c)
    (hv : s.findService sid = some v) :
    (getBeneficiaryById (some u) bid s =
      if b.createdById = u.id ∨ b.assignedToId = u.id then .payload 200 b
      else .failure 403 (.plain "Forbidden")) ∧
    (getCaseById (some u) cid s =
      if c.createdById = u.id ∨ c.assignedToIds.contains u.id then .payload 200 c
      else .failure 403 (.plain "Forbidden")) ∧
    (getServiceById (some u) sid s =
      if v.providedById = u.id then .payload 200 v
      else .failure 403 (.plain "Forbidden")) ∧
    getBeneficiaryById (some w) bid s = .payload 200 b ∧
    getCaseById (some w) cid s = .payload 200 c ∧
    getServiceById (some w) sid s = .payload 200 v := by
  refine ⟨?_, ?_, ?_, ?_, ?_, ?_⟩
  · simp only [getBeneficiaryById, requireAuth, hb]
    by_cases hown : b.createdById = u.id ∨ b.assignedToId = u.id
    · rw [if_pos hown, if_neg]
      rintro ⟨-, hne1, hne2⟩
      rcases hown with h | h
      · exact hne1 h
      · exact hne2 h
    · have h2 := not_or.1 hown
      rw [if_pos ⟨hu, h2.1, h2.2⟩, if_neg hown]
  · simp only [getCaseById, requireAuth, hc]
    by_cases hown : c.createdById = u.id ∨ c.assignedToIds.contains u.id
    · rw [if_pos hown, if_neg]
      rintro ⟨-, hne1, hne2⟩
      rcases hown with h | h
      · exact hne1 h
      · exact hne2 h
    · have h2 := not_or.1 hown
      rw [if_pos ⟨hu, h2.1, h2.2⟩, if_neg hown]
  · simp only [getServiceById, requireAuth, hv]
    by_cases hown : v.providedById = u.id
    · rw [if_pos hown, if_neg]
      rintro ⟨-, hne⟩
      exact hne hown
    · rw [if_pos ⟨hu, hown⟩, if_neg hown]
  · simp only [getBeneficiaryById, requireAuth, hb]
    rw [if_neg]
    rintro ⟨h | h, -, -⟩ <;> rw [hw] at h <;> cases h
  · simp only [getCaseById, requireAuth, hc]
    rw [if_neg]
    rintro ⟨h | h, -, -⟩ <;> rw [hw] at h <;> cases h
  · simp only [getServiceById, requireAuth, hv]
    rw [if_neg]
    rintro ⟨h | h, -⟩ <;> rw [hw] at h <;> cases h

/-- C1 witness: concrete instance of `read_scoping_scoped_roles` — the
volunteer `u-vol` is assignee of all three fixture rows, the staff user is a
stranger to them. -/
theorem read_scoping_scoped_roles_witness :
    (getBeneficiaryById (some uVol) "cben00000001" store1 =
      if benV.createdById = uVol.id ∨ benV.assignedToId = uVol.id then .payload 200 benV
      else .failure 403 (.plain "Forbidden")) ∧
    (getCaseById (some uVol) "ccase0000001" store1 =
      if caseV.createdById = uVol.id ∨ caseV.assignedToIds.contains uVol.id then .payload 200 caseV
      else .failure 403 (.plain "Forbidden")) ∧
    (getServiceById (some uVol) "csvc00000001" store1 =
      if svcV.providedById = uVol.id then .payload 200 svcV
      else .failure 403 (.plain "Forbidden")) ∧
    getBeneficiaryById (some uStaff) "cben00000001" store1 = .payload 200 benV ∧
    getCaseById (some uStaff) "ccase0000001" store1 = .payload 200 caseV ∧
    getServiceById (some uStaff) "csvc00000001" store1 = .payload 200 svcV :=
  read_scoping_scoped_roles uVol uStaff store1 "cben00000001" "ccase0000001" "csvc00000001"
    benV caseV svcV (Or.inl rfl) rfl rfl rfl rfl

/-! ## C2 — audit logging per mutation -/

/-- A patch that only changes `notes`. -/
def pNotes : BenPatch := { benPatchNone with notes := some (some "updated notes") }

/-- A valid caseless service-create body referencing the fixture beneficiary. -/
def svcBody1 : ServiceBody :=
  { type := .COUNSELING, date := 5, description := none, quantity := none
    cost := none, beneficiaryId := "cben00000001", caseId := none
    location := none, notes := none }

/-- An archived beneficiary. -/
def benArch : Beneficiary := mkBen "cben00000003" "Chan" "Wei" "u-other" "u-other" .ARCHIVED none

/-- Store holding only the archived beneficiary. -/
def storeArch : Store := ⟨[benArch], [], [], []⟩

/-- A patch setting only `status := ACTIVE`. -/
def pActive : BenPatch := { benPatchNone with status := some .ACTIVE }

/-- C4, counterexample: `status` is an ordinary updatable field of
`beneficiarySchema` (all four enum values allowed), and the update handler
never tests the existing status — an ADMIN `UpdateBeneficiary` carrying
`status: 'ACTIVE'` on an ARCHIVED beneficiary succeeds and reverses the
archive. -/
theorem unarchive_via_update_cex :
    benArch.status = .ARCHIVED ∧
    (updateBeneficiary (some uAdmin) "cben00000003" pActive true storeArch).1
      = .payload 200 { benArch with status := .ACTIVE } ∧
    ((updateBeneficiary (some uAdmin) "cben00000003" pActive true storeArch).2.beneficiaries.find?
        (fun x => x.id == "cben00000003")).map (fun x => x.status) = some .ACTIVE :=
  ⟨rfl, rfl, rfl⟩

/-- C4 (amended): an update whose body does not carry a `status` key leaves
the beneficiary's status unchanged — in particular ARCHIVED is never
*silently* reversed; but `status` is part of the update schema, so an update
that explicitly supplies `status` can set any value, including moving an
ARCHIVED beneficiary back to ACTIVE. -/
theorem status_unchanged_when_absent
    (auth : Option User) (id : String) (p : BenPatch) (auditOk : Bool) (s : Store)
    (b : Beneficiary)
    (hb : s.findBeneficiary id = some b)
    (hps : p.status = none) :
    ((updateBeneficiary auth id p auditOk s).2.beneficiaries.find? (fun x => x.id == id)).map
        (fun x => x.status) = some b.status := by
  have hb0 : List.find? (fun x : Beneficiary => x.id == id) s.beneficiaries = some b := hb
  have hbid' : b.id = id := by simpa using List.find?_some hb0
  have happ : (applyBenPatch b p).id = id := hbid'
  rcases auth with _ | u
  · simp [updateBeneficiary, requireRole, hb0]
  · by_cases hrole : u.role = Role.SUPER_ADMIN ∨ u.role = Role.ADMIN ∨ u.role = Role.STAFF ∨
        u.role = Role.FIELD_WORKER
    · by_cases hscope : u.role = .FIELD_WORKER ∧ b.createdById ≠ u.id ∧ b.assignedToId ≠ u.id
      · simp [updateBeneficiary, requireRole, hrole, hb, hscope, hb0]
      · by_cases hpi : benPatchIssues p = []
        · by_cases hd : benUpdateDupHit p b s = true
          · simp [updateBeneficiary, requireRole, hrole, hb, hscope, benPatchParse, hpi, hd, hb0]
          · rw [Bool.not_eq_true] at hd
            have hben : (updateBeneficiary (some u) id p auditOk s).2.beneficiaries
                = s.beneficiaries.map (fun x => if x.id == id then applyBenPatch b p else x) := by
              cases auditOk <;>
                simp [updateBeneficiary, requireRole, hrole, hb, hscope, benPatchParse, hpi, hd,
                  Store.logAudit]
            rw [hben, find?_map_replace (fun x : Beneficiary => x.id) id _ happ, hb0]
            simp [applyBenPatch, hps]
        · simp [updateBeneficiary, requireRole, hrole, hb, hscope, benPatchParse, hpi, hb0]
    · simp [updateBeneficiary, requireRole, hrole, hb0]

/-- C4 witness: a patch without a `status` key leaves the archived fixture
beneficiary ARCHIVED. -/
theorem status_unchanged_when_absent_witness :
    ((updateBeneficiary (some uAdmin) "cben00000003" pNotes true storeArch).2.beneficiaries.find?
        (fun x => x.id == "cben00000003")).map (fun x => x.status) = some benArch.status :=
  status_unchanged_when_absent (some uAdmin) "cben00000003" pNotes true storeArch benArch rfl rfl

/-! ## C5 — list scoping must be conjoined with caller filters -/

/-- A beneficiary created by and assigned to the field worker `u-fw`. -/
def benBob : Beneficiary := mkBen "cben00000004" "Bob" "Rahman" "u-fw" "u-fw" .ACTIVE none

/-- Store holding only `benBob`. -/
def storeFw : Store := ⟨[benBob], [], [], []⟩

/-- C5: the role-scoping block assigns `where.OR` after the search block set
it, so a FIELD_WORKER's free-text search is discarded: searching "Alice"
returns Bob (total 1), while the conjoined query of the spec returns 0. -/
theorem search_filter_discarded :
    listBeneficiaries (some uFw) "Alice" "" "" 1 10 storeFw
      = .payload 200 { items := [benBob], page := 1, limit := 10, total := 1, totalPages := 1 } ∧
    benMatchesOr (.searchOr "Alice") benBob = false ∧
    specScopedBenCount uFw "Alice" "" "" storeFw = 0 :=
  ⟨rfl, rfl, rfl⟩

/-! ## C6 — duplicate idNumber conflict -/

/-- An existing beneficiary whose `idNumber` is the empty string. -/
def benEmptyId : Beneficiary := mkBen "cben00000005" "Dina" "Ng" "u-staff" "u-staff" .ACTIVE (some "")

/-- Store holding only `benEmptyId`. -/
def storeEmptyId : Store := ⟨[benEmptyId], [], [], []⟩

/-- A create body proposing `idNumber: ""`. -/
def benBodyEmptyId : BenBody :=
  { firstName := "Eva", lastName := "Lim", dateOfBirth := none, gender := none
    nationality := none, idNumber := some "", phone := none, email := none
    address := none, city := none, state := none, postcode := none
    emergencyName := none, emergencyPhone := none, emergencyRelation := none
    category := .ELDERLY, status := none, priority := none, notes := none
    tags := none, source := none, assignedToId := none }

/-- An existing beneficiary with `idNumber: "A1"`. -/
def benA1 : Beneficiary := mkBen "cben00000007" "Farid" "Omar" "u-staff" "u-staff" .ACTIVE (some "A1")

/-- A second beneficiary (no idNumber) on which an update can collide. -/
def benB2 : Beneficiary := mkBen "cben00000008" "Gopal" "Raj" "u-staff" "u-staff" .ACTIVE none

/-- Store holding `benA1` and `benB2`. -/
def storeA1 : Store := ⟨[benA1, benB2], [], [], []⟩

/-- A create body proposing `idNumber: "A1"`. -/
def benBodyA1 : BenBody := { benBodyEmptyId with idNumber := some "A1" }

/-- A patch proposing `idNumber: "A1"`. -/
def pIdA1 : BenPatch := { benPatchNone with idNumber := some (some "A1") }

/-- C6, counterexample: the handler's duplicate check is guarded by JS
truthiness (`if (validated.idNumber)`), so a *non-null but empty* `idNumber`
equal to another beneficiary's empty `idNumber` bypasses it; the insert then
trips the store's unique index on `idNumber` instead, and the catch surfaces
the generic 500 internal error with nothing persisted — not the dedicated
duplicate-idNumber 400 the claim requires for every non-null duplicate, so
the caller cannot tell this conflict apart. -/
theorem empty_idNumber_dup_cex :
    benBodyEmptyId.idNumber = some "" ∧ benEmptyId.idNumber = some "" ∧
    createBeneficiary (some uStaff) benBodyEmptyId "cben00000006" true storeEmptyId
        = (.failure 500 (.plain "Failed to create beneficiary"), storeEmptyId) ∧
    (createBeneficiary (some uStaff) benBodyEmptyId "cben00000006" true storeEmptyId).1
        ≠ .failure 400 (.plain "A beneficiary with this ID number already exists") :=
  ⟨rfl, rfl, rfl, by decide⟩

/-- C6 (amended): a beneficiary create or update proposing a *non-empty*
`idNumber` equal to an existing beneficiary's `idNumber` fails with the
dedicated duplicate-idNumber error — an HTTP 400 whose body is the fixed
message, a response distinguishable by the caller from the ZodError shape
(`{ error: 'Validation error', details }`) that field-constraint failures
produce; an empty-string `idNumber` bypasses the handler's duplicate check
and fails at the store's unique index as a generic 500 instead. -/
theorem dup_idNumber_conflict
    (u : User) (s1 s2 : Store) (body : BenBody) (v : BenInput) (n : String)
    (id newId : String) (b d2 : Beneficiary) (p : BenPatch) (m : String)
    (auditOk : Bool) (issues : List String)
    (hrole : requireRole [.SUPER_ADMIN, .ADMIN, .STAFF, .FIELD_WORKER] (some u) = .ok u)
    (hparse : benBodyParse body = .ok v)
    (hn : v.idNumber = some n) (hne : n ≠ "")
    (hdup : s1.findBeneficiaryByIdNumber n = some d2)
    (hb : s2.findBeneficiary id = some b)
    (hscope : ¬(u.role = .FIELD_WORKER ∧ b.createdById ≠ u.id ∧ b.assignedToId ≠ u.id))
    (hpi : benPatchIssues p = [])
    (hpn : p.idNumber = some (some m)) (hm : m ≠ "") (hmne : some m ≠ b.idNumber)
    (hdup2 : s2.findBeneficiaryByIdNumber m = some d2) :
    createBeneficiary (some u) body newId auditOk s1
        = (.failure 400 (.plain "A beneficiary with this ID number already exists"), s1) ∧
    updateBeneficiary (some u) id p auditOk s2
        = (.failure 400 (.plain "A beneficiary with this ID number already exists"), s2) ∧
    ErrBody.plain "A beneficiary with this ID number already exists" ≠ ErrBody.zodIssues issues := by
  refine ⟨?_, ?_, by simp⟩
  · have hhit : benCreateDupHit v s1 = true := by
      simp [benCreateDupHit, hn, hne, hdup]
    simp [createBeneficiary, hrole, hparse, hhit]
  · have hhit2 : benUpdateDupHit p b s2 = true := by
      simp [benUpdateDupHit, hpn, hm, hmne, hdup2]
    simp [updateBeneficiary, hrole, hb, hscope, benPatchParse, hpi, hhit2]

/-- C6 witness: creating with `idNumber "A1"` while `benA1` holds "A1", and
updating `benB2` to `idNumber "A1"`, both return the duplicate-idNumber
error. -/
theorem dup_idNumber_conflict_witness :
    createBeneficiary (some uStaff) benBodyA1 "cben00000009" true storeA1
        = (.failure 400 (.plain "A beneficiary with this ID number already exists"), storeA1) ∧
    updateBeneficiary (some uStaff) "cben00000008" pIdA1 true storeA1
        = (.failure 400 (.plain "A beneficiary with this ID number already exists"), storeA1) ∧
    ErrBody.plain "A beneficiary with this ID number already exists" ≠ ErrBody.zodIssues [] :=
  dup_idNumber_conflict uStaff storeA1 storeA1 benBodyA1
    { firstName := "Eva", lastName := "Lim", dateOfBirth := none, gender := none
      nationality := none, idNumber := some "A1", phone := none, email := none
      address := none, city := none, state := none, postcode := none
      emergencyName := none, emergencyPhone := none, emergencyRelation := none
      category := .ELDERLY, status := .ACTIVE, priority := .MEDIUM, notes := none
      tags := [], source := none }
    "A1" "cben00000008" "cben00000009" benB2 benA1 pIdA1 "A1" true []
    rfl rfl rfl (by decide) rfl rfl (by decide) rfl rfl (by decide) (by decide) rfl

/-! ## C7 — unconditional role denials -/

/-- A case-patch body with every key absent. -/
def casePatchNone : CasePatch :=
  { title := none, description := none, type := none, priority := none
    status := none, beneficiaryId := none }

/-- A valid case-create body referencing the fixture beneficiary. -/
def caseBody1 : CaseBody :=
  { title := "Aid", description := "Support needed", type := .FOOD
    priority := none, status := none, beneficiaryId := "cben00000001" }

/-- C7: DeleteCase, DeleteService and ArchiveBeneficiary pass through
`requireRole(['SUPER_ADMIN','ADMIN'])`, so STAFF and FIELD_WORKER are denied
unconditionally; a VOLUNTEER is outside the allowed list of every create,
update, delete and archive handler, so all mutations are denied regardless
of any creator/assignee relationship, and the store is never touched. -/
theorem role_denials
    (u v : User) (s : Store) (id newId : String) (bb : BenBody) (bp : BenPatch)
    (cb : CaseBody) (cp : CasePatch) (sb : ServiceBody) (sp : ServicePatch)
    (auditOk : Bool) (now : Nat)
    (hu : u.role = .STAFF ∨ u.role = .FIELD_WORKER)
    (hv : v.role = .VOLUNTEER) :
    deleteCase (some u) id auditOk s = (.failure 403 (.plain "Forbidden"), s) ∧
    deleteService (some u) id auditOk s = (.failure 403 (.plain "Forbidden"), s) ∧
    archiveBeneficiary (some u) id auditOk s = (.failure 403 (.plain "Forbidden"), s) ∧
    createBeneficiary (some v) bb newId auditOk s = (.failure 403 (.plain "Forbidden"), s) ∧
    updateBeneficiary (some v) id bp auditOk s = (.failure 403 (.plain "Forbidden"), s) ∧
    archiveBeneficiary (some v) id auditOk s = (.failure 403 (.plain "Forbidden"), s) ∧
    createCase (some v) cb newId auditOk s = (.failure 403 (.plain "Forbidden"), s) ∧
    updateCase (some v) id cp auditOk now s = (.failure 403 (.plain "Forbidden"), s) ∧
    deleteCase (some v) id auditOk s = (.failure 403 (.plain "Forbidden"), s) ∧
    createService (some v) sb newId auditOk s = (.failure 403 (.plain "Forbidden"), s) ∧
    updateService (some v) id sp auditOk s = (.failure 403 (.plain "Forbidden"), s) ∧
    deleteService (some v) id auditOk s = (.failure 403 (.plain "Forbidden"), s) := by
  rcases hu with hu | hu <;>
  · refine ⟨?_, ?_, ?_, ?_, ?_, ?_, ?_, ?_, ?_, ?_, ?_, ?_⟩ <;>
      simp [deleteCase, deleteService, archiveBeneficiary, createBeneficiary,
        updateBeneficiary, createCase, updateCase, createService, updateService,
        requireRole, hu, hv]

/-- C7 witness: the denials at a concrete STAFF user and a concrete
VOLUNTEER on the fixture store. -/
theorem role_denials_witness :
    deleteCase (some uStaff) "ccase0000001" true store1 = (.failure 403 (.plain "Forbidden"), store1) ∧
    deleteService (some uStaff) "ccase0000001" true store1 = (.failure 403 (.plain "Forbidden"), store1) ∧
    archiveBeneficiary (some uStaff) "ccase0000001" true store1 = (.failure 403 (.plain "Forbidden"), store1) ∧
    createBeneficiary (some uVol) benBodyA1 "cben00000010" true store1 = (.failure 403 (.plain "Forbidden"), store1) ∧
    updateBeneficiary (some uVol) "ccase0000001" benPatchNone true store1 = (.failure 403 (.plain "Forbidden"), store1) ∧
    archiveBeneficiary (some uVol) "ccase0000001" true store1 = (.failure 403 (.plain "Forbidden"), store1) ∧
    createCase (some uVol) caseBody1 "cben00000010" true store1 = (.failure 403 (.plain "Forbidden"), store1) ∧
    updateCase (some uVol) "ccase0000001" casePatchNone true 0 store1 = (.failure 403 (.plain "Forbidden"), store1) ∧
    deleteCase (some uVol) "ccase0000001" true store1 = (.failure 403 (.plain "Forbidden"), store1) ∧
    createService (some uVol) svcBody1 "cben00000010" true store1 = (.failure 403 (.plain "Forbidden"), store1) ∧
    updateService (some uVol) "ccase0000001" servicePatchNone true store1 = (.failure 403 (.plain "Forbidden"), store1) ∧
    deleteService (some uVol) "ccase0000001" true store1 = (.failure 403 (.plain "Forbidden"), store1) :=
  role_denials uStaff uVol store1 "ccase0000001" "cben00000010" benBodyA1 benPatchNone
    caseBody1 casePatchNone svcBody1 servicePatchNone true 0 (Or.inl rfl) rfl

/-! ## C8 — cross-entity existence checks -/

/-- A service patch pointing `caseId` at a non-existent case. -/
def svcPatchDangling : ServicePatch :=
  { servicePatchNone with caseId := some (some "cnone0000009") }

/-- C8, counterexample: `PATCH /api/services/[id]` runs no existence check —
an update carrying a `caseId` that references no case is handed straight to
the store, whose foreign-key constraint rejects the write; the operation
surfaces as the generic 500 internal error with nothing persisted, not as
the 404 NotFound that the create path's existence check produces — so the
corresponding existence check does not run on updates, contrary to the
claim. -/
theorem service_update_no_check_cex :
    store1.findCase "cnone0000009" = none ∧
    updateService (some uAdmin) "csvc00000001" svcPatchDangling true store1
        = (.failure 500 (.plain "Failed to update service"), store1) ∧
    updateService (some uAdmin) "csvc00000001" svcPatchDangling true store1
        ≠ (.failure 404 (.plain "Case not found"), store1) :=
  ⟨rfl, rfl, by decide⟩

/-- A valid service-create body whose beneficiary does not exist. -/
def svcBodyNoBen : ServiceBody := { svcBody1 with beneficiaryId := "cnone0000001" }

/-- A valid service-create body whose beneficiary exists but whose case does
not. -/
def svcBodyNoCase : ServiceBody := { svcBody1 with caseId := some "cnone0000009" }

/-- A valid case-create body whose beneficiary does not exist. -/
def caseBodyNoBen : CaseBody := { caseBody1 with beneficiaryId := "cnone0000001" }

/-- C8 (amended): the cross-entity existence checks run on *create* only — a
Service create fails with 404 unless its `beneficiaryId` references an
existing Beneficiary and, when a non-empty `caseId` is present, unless that
Case exists; a Case create fails with 404 unless its `beneficiaryId`
references an existing Beneficiary.  A Service *update* performs no
existence check on a `beneficiaryId` or `caseId` present in the patch: a
dangling reference instead violates the store's foreign-key constraint and
the operation fails as a generic 500 internal error, persisting nothing. -/
theorem reference_checks_on_create
    (u : User) (s1 s2 s3 s4 : Store) (sb1 sb2 : ServiceBody) (cb : CaseBody)
    (newId cid sid : String) (b2 : Beneficiary) (sv : ServiceRow) (sp : ServicePatch)
    (auditOk : Bool)
    (hrole : requireRole [.SUPER_ADMIN, .ADMIN, .STAFF, .FIELD_WORKER] (some u) = .ok u)
    (hsb1 : serviceBodyIssues sb1 = [])
    (hmiss1 : s1.findBeneficiary sb1.beneficiaryId = none)
    (hsb2 : serviceBodyIssues sb2 = [])
    (hfound : s2.findBeneficiary sb2.beneficiaryId = some b2)
    (hcid : sb2.caseId = some cid) (hcidne : cid ≠ "")
    (hcmiss : s2.findCase cid = none)
    (hcb : caseBodyIssues cb = [])
    (hbmiss : s3.findBeneficiary cb.beneficiaryId = none)
    (hsv : s4.findService sid = some sv)
    (hscope2 : ¬(u.role = .FIELD_WORKER ∧ sv.providedById ≠ u.id))
    (hsp : servicePatchIssues sp = [])
    (hfk : serviceFkViolation (applyServicePatch sv sp) s4 = true) :
    createService (some u) sb1 newId auditOk s1
        = (.failure 404 (.plain "Beneficiary not found"), s1) ∧
    createService (some u) sb2 newId auditOk s2
        = (.failure 404 (.plain "Case not found"), s2) ∧
    createCase (some u) cb newId auditOk s3
        = (.failure 404 (.plain "Beneficiary not found"), s3) ∧
    updateService (some u) sid sp auditOk s4
        = (.failure 500 (.plain "Failed to update service"), s4) := by
  refine ⟨?_, ?_, ?_, ?_⟩
  · simp [createService, hrole, serviceBodyParse, hsb1, hmiss1]
  · simp [createService, hrole, serviceBodyParse, hsb2, hfound, hcid, hcidne, hcmiss]
  · simp [createCase, hrole, caseBodyParse, hcb, hbmiss]
  · simp [updateService, hrole, hsv, hscope2, servicePatchParse, hsp, hfk]

/-- C8 witness: the three create-side 404s and the update-side 500 at
concrete bodies over the fixture store. -/
theorem reference_checks_on_create_witness :
    createService (some uStaff) svcBodyNoBen "csvc00000003" true store1
        = (.failure 404 (.plain "Beneficiary not found"), store1) ∧
    createService (some uStaff) svcBodyNoCase "csvc00000003" true store1
        = (.failure 404 (.plain "Case not found"), store1) ∧
    createCase (some uStaff) caseBodyNoBen "ccase0000003" true store1
        = (.failure 404 (.plain "Beneficiary not found"), store1) ∧
    updateService (some uStaff) "csvc00000001" svcPatchDangling true store1
        = (.failure 500 (.plain "Failed to update service"), store1) :=
  reference_checks_on_create uStaff store1 store1 store1 store1 svcBodyNoBen svcBodyNoCase
    caseBodyNoBen "csvc00000003" "cnone0000009" "csvc00000001" benV svcV svcPatchDangling true
    rfl rfl rfl rfl rfl rfl (by decide) rfl rfl rfl rfl (by decide) rfl rfl

/-! ## C9 — archiving is a pure status flip -/

/-- C9: archiving (the DELETE handler on a beneficiary) rewrites exactly the
matched row, setting `status := ARCHIVED` and nothing else; the row count is
preserved (no physical delete) and the cases and services tables are
untouched. -/
theorem archive_frame
    (u : User) (s : Store) (id : String) (b : Beneficiary) (auditOk : Bool)
    (hrole : requireRole [.SUPER_ADMIN, .ADMIN] (some u) = .ok u)
    (hb : s.findBeneficiary id = some b) :
    (archiveBeneficiary (some u) id auditOk s).2.beneficiaries
        = s.beneficiaries.map
            (fun x => if x.id == id then { x with status := BStatus.ARCHIVED } else x) ∧
    (archiveBeneficiary (some u) id auditOk s).2.beneficiaries.length
        = s.beneficiaries.length ∧
    (archiveBeneficiary (some u) id auditOk s).2.cases = s.cases ∧
    (archiveBeneficiary (some u) id auditOk s).2.services = s.services ∧
    (archiveBeneficiary (some u) id true s).1
        = .payload 200 "Beneficiary archived successfully" := by
  refine ⟨?_, ?_, ?_, ?_, ?_⟩ <;>
    cases auditOk <;> simp [archiveBeneficiary, hrole, hb, Store.logAudit]

/-- C9 witness: archiving the fixture beneficiary as ADMIN. -/
theorem archive_frame_witness :
    (archiveBeneficiary (some uAdmin) "cben00000001" true store1).2.beneficiaries
        = store1.beneficiaries.map
            (fun x => if x.id == "cben00000001" then { x with status := BStatus.ARCHIVED } else x) ∧
    (archiveBeneficiary (some uAdmin) "cben00000001" true store1).2.beneficiaries.length
        = store1.beneficiaries.length ∧
    (archiveBeneficiary (some uAdmin) "cben00000001" true store1).2.cases = store1.cases ∧
    (archiveBeneficiary (some uAdmin) "cben00000001" true store1).2.services = store1.services ∧
    (archiveBeneficiary (some uAdmin) "cben00000001" true store1).1
        = .payload 200 "Beneficiary archived successfully" :=
  archive_frame uAdmin store1 "cben00000001" benV true rfl rfl

/-! ## C10 — assignedTo of a created beneficiary is always the creator -/

/-- If a lookup misses the first list it continues in the appended one. -/
theorem find?_append_right {α : Type} (p : α → Bool) (l₁ l₂ : List α)
    (h : l₁.find? p = none) : (l₁ ++ l₂).find? p = l₂.find? p := by
  induction l₁ with
  | nil => rfl
  | cons a t ih =>
    rw [List.find?_cons] at h
    cases hpa : p a with
    | true => rw [hpa] at h; cases h
    | false =>
      rw [hpa] at h
      simpa [List.find?_cons, hpa] using ih h

/-- A create body that tries to assign the new beneficiary to someone else
via an `assignedToId` key — a key `beneficiarySchema` does not declare. -/
def benBodyEvil : BenBody :=
  { benBodyEmptyId with idNumber := none, assignedToId := some "u-evil" }

/-- The parse output of `benBodyEvil`: the `assignedToId` key is stripped. -/
def vEvil : BenInput :=
  { firstName := "Eva", lastName := "Lim", dateOfBirth := none, gender := none
    nationality := none, idNumber := none, phone := none, email := none
    address := none, city := none, state := none, postcode := none
    emergencyName := none, emergencyPhone := none, emergencyRelation := none
    category := .ELDERLY, status := .ACTIVE, priority := .MEDIUM, notes := none
    tags := [], source := none }

/-- C10: `beneficiarySchema` declares no `assignedToId` key, so `.parse`
strips any caller-supplied value and `validated.assignedToId || user.id`
always evaluates to `user.id`: the created row's `assignedToId` (and
`createdById`) is the creating actor, whatever the raw body carried. -/
theorem create_assignedTo_is_creator
    (u : User) (s : Store) (body : BenBody) (v : BenInput) (newId : String)
    (auditOk : Bool)
    (hrole : requireRole [.SUPER_ADMIN, .ADMIN, .STAFF, .FIELD_WORKER] (some u) = .ok u)
    (hparse : benBodyParse body = .ok v)
    (hdup : benCreateDupHit v s = false)
    (huniq : idNumberConflict (benInputToRow v newId u.id u.id) s = false)
    (hfresh : s.findBeneficiary newId = none) :
    (createBeneficiary (some u) body newId auditOk s).2.findBeneficiary newId
        = some (benInputToRow v newId u.id u.id) ∧
    (benInputToRow v newId u.id u.id).assignedToId = u.id ∧
    (benInputToRow v newId u.id u.id).createdById = u.id := by
  refine ⟨?_, rfl, rfl⟩
  have hfresh0 : List.find? (fun x : Beneficiary => x.id == newId) s.beneficiaries = none :=
    hfresh
  have happ : (s.beneficiaries ++ [benInputToRow v newId u.id u.id]).find?
      (fun x => x.id == newId) = some (benInputToRow v newId u.id u.id) := by
    rw [find?_append_right _ _ _ hfresh0]
    simp [List.find?_cons, benInputToRow]
  cases auditOk <;>
    simp [createBeneficiary, hrole, hparse, hdup, huniq, Store.findBeneficiary,
      Store.logAudit, happ]

/-- C10 witness: a STAFF create whose body carries `assignedToId: "u-evil"`
still yields a row assigned to the creating staff user. -/
theorem create_assignedTo_is_creator_witness :
    (createBeneficiary (some uStaff) benBodyEvil "cben00000011" true store1).2.findBeneficiary
        "cben00000011" = some (benInputToRow vEvil "cben00000011" uStaff.id uStaff.id) ∧
    (benInputToRow vEvil "cben00000011" uStaff.id uStaff.id).assignedToId = uStaff.id ∧
    (benInputToRow vEvil "cben00000011" uStaff.id uStaff.id).createdById = uStaff.id :=
  create_assignedTo_is_creator uStaff store1 benBodyEvil vEvil "cben00000011" true
    rfl rfl rfl rfl rfl

end Beneficiary
